import Mathlib

/-!
Verification of the PAIERO payroll engine: a shallow embedding in Lean 4 of
`business/tax_calculator.py` and `business/payroll_calculator.py`, with the
statutory rates of `config.py`.  Monetary amounts are modelled as rationals;
Python's `round(x, 2)` (round half to even) is modelled by `round2`; an
uncaught Python exception is modelled by `none`.
-/

/-- Round half to even on rationals: the integer nearest to `q`, ties going to
the even integer — the semantics of Python's builtin `round`. -/
def roundHalfEven (q : ℚ) : ℤ :=
  if q - ⌊q⌋ < 1/2 then ⌊q⌋
  else if 1/2 < q - ⌊q⌋ then ⌊q⌋ + 1
  else if ⌊q⌋ % 2 = 0 then ⌊q⌋ else ⌊q⌋ + 1

/-- Python `round(x, 2)`: round to the nearest multiple of a cent. -/
def round2 (q : ℚ) : ℚ := (roundHalfEven (q * 100) : ℚ) / 100

theorem roundHalfEven_ge_floor (q : ℚ) : ⌊q⌋ ≤ roundHalfEven q := by
  unfold roundHalfEven; split_ifs <;> omega

theorem roundHalfEven_le_floor_add_one (q : ℚ) : roundHalfEven q ≤ ⌊q⌋ + 1 := by
  unfold roundHalfEven; split_ifs <;> omega

theorem roundHalfEven_le (q : ℚ) : (roundHalfEven q : ℚ) ≤ q + 1/2 := by
  unfold roundHalfEven
  have h0 := Int.floor_le q
  have h1 := Int.lt_floor_add_one q
  split_ifs with ha hb hc <;> push_cast <;> linarith

theorem le_roundHalfEven (q : ℚ) : q - 1/2 ≤ (roundHalfEven q : ℚ) := by
  unfold roundHalfEven
  have h0 := Int.floor_le q
  have h1 := Int.lt_floor_add_one q
  split_ifs with ha hb hc <;> push_cast <;> linarith

theorem roundHalfEven_mono {a b : ℚ} (h : a ≤ b) :
    roundHalfEven a ≤ roundHalfEven b := by
  rcases lt_or_le ⌊a⌋ ⌊b⌋ with hf | hf
  · calc roundHalfEven a ≤ ⌊a⌋ + 1 := roundHalfEven_le_floor_add_one a
      _ ≤ ⌊b⌋ := by omega
      _ ≤ roundHalfEven b := roundHalfEven_ge_floor b
  · have hfe : ⌊a⌋ = ⌊b⌋ := le_antisymm (Int.floor_le_floor h) hf
    unfold roundHalfEven
    rw [hfe]
    split_ifs <;> first | omega | linarith

theorem roundHalfEven_nonneg {q : ℚ} (h : 0 ≤ q) : 0 ≤ roundHalfEven q := by
  have := roundHalfEven_ge_floor q
  have : (0 : ℤ) ≤ ⌊q⌋ := Int.floor_nonneg.mpr h
  omega

theorem round2_mono {a b : ℚ} (h : a ≤ b) : round2 a ≤ round2 b := by
  unfold round2
  have := roundHalfEven_mono (show a * 100 ≤ b * 100 by linarith)
  have : ((roundHalfEven (a * 100) : ℚ)) ≤ ((roundHalfEven (b * 100) : ℚ)) := by
    exact_mod_cast this
  linarith

theorem round2_nonneg {q : ℚ} (h : 0 ≤ q) : 0 ≤ round2 q := by
  unfold round2
  have : (0 : ℤ) ≤ roundHalfEven (q * 100) := roundHalfEven_nonneg (by linarith)
  have : (0 : ℚ) ≤ (roundHalfEven (q * 100) : ℚ) := by exact_mod_cast this
  linarith

/-- Amounts more than a cent apart round to different cents. -/
theorem round2_lt_of_gap {a b : ℚ} (h : 1/100 < b - a) : round2 a < round2 b := by
  unfold round2
  have h1 : (roundHalfEven (a * 100) : ℚ) ≤ a * 100 + 1/2 := roundHalfEven_le _
  have h2 : b * 100 - 1/2 ≤ (roundHalfEven (b * 100) : ℚ) := le_roundHalfEven _
  have : (roundHalfEven (a * 100) : ℚ) < (roundHalfEven (b * 100) : ℚ) := by linarith
  linarith

-- sanity checks on the model of Python rounding (ties go to the even cent)
example : round2 (1/3) = 33/100 := by norm_num [round2, roundHalfEven]
example : round2 (1/200) = 0 := by norm_num [round2, roundHalfEven]
example : round2 (3/200) = 2/100 := by norm_num [round2, roundHalfEven]
example : round2 (-1/3) = -33/100 := by norm_num [round2, roundHalfEven]

/-! ## Python string primitives

The status-code lookups use Python's `str.upper`, `str.strip`, indexing and
`int(...)`.  They are modelled structurally over the character list of a
`String` so that concrete lookups evaluate. -/

/-- Python `str.upper()` (ASCII, as used for status codes). -/
def pyUpper (s : String) : String := String.mk (s.data.map Char.toUpper)

/-- Python `str.strip()`: drop leading and trailing whitespace. -/
def pyStrip (s : String) : String :=
  String.mk (((s.data.dropWhile Char.isWhitespace).reverse.dropWhile
    Char.isWhitespace).reverse)

/-- One decimal digit of a Python integer literal. -/
def digitsToNat : List Char → Option Nat
  | [] => none
  | cs =>
    if cs.all Char.isDigit then
      some (cs.foldl (fun a c => a * 10 + (c.toNat - 48)) 0)
    else none

/-- Python `int(s)`: optional surrounding whitespace, optional sign, decimal
digits; `none` models an uncaught `ValueError`. -/
def pyInt (s : String) : Option ℤ :=
  match (pyStrip s).data with
  | '+' :: rest => (digitsToNat rest).map Int.ofNat
  | '-' :: rest => (digitsToNat rest).map (fun n => -(n : ℤ))
  | cs => (digitsToNat cs).map Int.ofNat

example : pyInt "08" = some 8 := by decide
example : pyInt " -3" = some (-3) := by decide
example : pyInt "" = none := by decide
example : pyInt "x7" = none := by decide

/-! ## Tax engine (`business/tax_calculator.py`) -/

/-- Tax bracket with min/max income and tax rate (`max_income = none` for the
highest bracket); `cumulative_tax` is the tax from previous brackets. -/
structure TaxBracket where
  min_income : ℚ
  max_income : Option ℚ
  tax_rate : ℚ
  cumulative_tax : ℚ := 0
deriving DecidableEq

namespace TaxCalculator

/-- Default Mali tax brackets (`TaxCalculator.DEFAULT_BRACKETS`). -/
def DEFAULT_BRACKETS : List TaxBracket :=
  [⟨0, some 330000, 0, 0⟩,
   ⟨330001, some 578400, 5/100, 0⟩,
   ⟨578401, some 1176400, 12/100, 12420⟩,
   ⟨1176401, some 1789733, 18/100, 84180⟩,
   ⟨1789734, some 2384195, 26/100, 194579⟩,
   ⟨2384196, some 3494130, 31/100, 349134⟩,
   ⟨3494131, none, 37/100, 693217⟩]

/-- The bracket loop of `calculate_annual_tax`: walk the brackets in order,
`break` (returning the sum so far) at the first bracket whose `min_income`
exceeds the income, otherwise add the bracket's slice times its rate. -/
def taxLoop : List TaxBracket → ℚ → ℚ
  | [], _ => 0
  | bracket :: rest, income =>
    if income < bracket.min_income then 0
    else
      (match bracket.max_income with
       | none => income - bracket.min_income + 1
       | some mx =>
         if income > mx then mx - bracket.min_income + 1
         else income - bracket.min_income + 1) * bracket.tax_rate
      + taxLoop rest income

/-- Method `TaxCalculator.calculate_annual_tax` with bracket list `brackets`
(`self.brackets`; the default-constructed calculator uses
`DEFAULT_BRACKETS`). -/
def calculate_annual_tax (brackets : List TaxBracket)
    (annual_taxable_income : ℚ) : ℚ :=
  if annual_taxable_income ≤ 0 then 0
  else round2 (taxLoop brackets annual_taxable_income)

/-- Method `TaxCalculator.calculate_monthly_tax`: annualize, apply the family charge
reduction to the tax base when positive, compute annual tax, divide by 12. -/
def calculate_monthly_tax (brackets : List TaxBracket)
    (monthly_gross_salary : ℚ) (family_charge_reduction : ℚ) : ℚ :=
  let annual_taxable := monthly_gross_salary * 12
  let annual_taxable :=
    if family_charge_reduction > 0 then
      annual_taxable * (1 - family_charge_reduction)
    else annual_taxable
  let annual_tax := calculate_annual_tax brackets annual_taxable
  round2 (annual_tax / 12)

/-- Method `TaxCalculator.get_family_charge_reduction`.  Here `none` models the uncaught
`IndexError` raised by `status_code[0]` when the upper-cased, stripped code is
empty (the indexing sits outside the `try` block in the source). -/
def get_family_charge_reduction (status_code : String) : Option ℚ :=
  if status_code = "" then some 0
  else
    match (pyStrip (pyUpper status_code)).data with
    | [] => none
    | marital_status :: rest =>
      match pyInt (String.mk rest) with
      | none => some 0
      | some number =>
        if marital_status = 'C' then
          if 0 ≤ number ∧ number ≤ 4 then some 0
          else if 5 ≤ number ∧ number ≤ 9 then some (10/100)
          else if 10 ≤ number ∧ number ≤ 15 then some (15/100)
          else some 0
        else if marital_status = 'M' then
          if 0 ≤ number ∧ number ≤ 4 then some (10/100)
          else if 5 ≤ number ∧ number ≤ 9 then some (20/100)
          else if 10 ≤ number ∧ number ≤ 20 then some (25/100)
          else some 0
        else some 0

end TaxCalculator

example : TaxCalculator.get_family_charge_reduction "C0" = some 0 := rfl
example : TaxCalculator.get_family_charge_reduction "m08" = some (20/100) := rfl
example : TaxCalculator.get_family_charge_reduction " " = none := rfl
example : TaxCalculator.get_family_charge_reduction "" = some 0 := rfl

/-! ## Payroll pipeline (`business/payroll_calculator.py`, rates from
`config.py`) -/

/-- Rate `INPS_EMPLOYEE_RATE` (3.6%). -/
def INPS_EMPLOYEE_RATE : ℚ := 36/1000

/-- Rate `INPS_EMPLOYER_RATE` (16.4%). -/
def INPS_EMPLOYER_RATE : ℚ := 164/1000

/-- Rate `AMO_EMPLOYEE_RATE` (3.06%). -/
def AMO_EMPLOYEE_RATE : ℚ := 306/10000

/-- Rate `AMO_EMPLOYER_RATE` (3.5%). -/
def AMO_EMPLOYER_RATE : ℚ := 35/1000

/-- Record `PayrollInput`: input data for payroll calculation. -/
structure PayrollInput where
  employee_id : String
  base_salary : ℚ
  status_code : String := ""
  days_worked : ℤ := 26
  days_absent : ℤ := 0
  transport_allowance : ℚ := 0
  family_allowance : ℚ := 0
  responsibility_allowance : ℚ := 0
  risk_allowance : ℚ := 0
  housing_allowance : ℚ := 0
  overtime_amount : ℚ := 0
  bonus_amount : ℚ := 0
  ind_spec_1973 : ℚ := 0
  cher_vie_1974 : ℚ := 0
  loan_deduction : ℚ := 0
  advance_deduction : ℚ := 0
  other_deductions : ℚ := 0
deriving DecidableEq

/-- Record `PayrollResult`: result of payroll calculation (every monetary field is
rounded to 2 decimals at assembly). -/
structure PayrollResult where
  employee_id : String
  base_salary : ℚ
  days_worked : ℤ
  days_absent : ℤ
  adjusted_base_salary : ℚ
  transport_allowance : ℚ
  family_allowance : ℚ
  responsibility_allowance : ℚ
  risk_allowance : ℚ
  housing_allowance : ℚ
  overtime_amount : ℚ
  bonus_amount : ℚ
  ind_spec_1973 : ℚ
  cher_vie_1974 : ℚ
  total_allowances : ℚ
  gross_salary : ℚ
  inps_employee : ℚ
  amo_employee : ℚ
  income_tax_net : ℚ
  loan_deduction : ℚ
  advance_deduction : ℚ
  other_deductions : ℚ
  total_deductions : ℚ
  net_salary : ℚ
  net_to_pay : ℚ
  inps_employer : ℚ
  amo_employer : ℚ
  total_employer_cost : ℚ
  taxe_logement : ℚ
  taxe_formation : ℚ
  taxe_emploi : ℚ
  contribution_cfe : ℚ
  total_labor_taxes : ℚ
  total_cost : ℚ
deriving DecidableEq

/-- Python's `x or y` on floats: `y` exactly when `x` is zero. -/
def pyOr (x y : ℚ) : ℚ := if x = 0 then y else x

namespace PayrollCalculator

/-- Method `PayrollCalculator._calculate_adjusted_base`: full salary if no absence,
otherwise deduct `base_salary / 26` per absent day, clamped at zero.
(`days_worked` is accepted but unused, as in the source.) -/
def _calculate_adjusted_base (base_salary : ℚ) (days_worked : ℤ)
    (days_absent : ℤ) : ℚ :=
  let standard_days : ℚ := 26
  if days_absent = 0 then base_salary
  else
    let daily_rate := base_salary / standard_days
    let absence_deduction := daily_rate * (days_absent : ℚ)
    let adjusted_base := base_salary - absence_deduction
    max 0 adjusted_base

/-- Method `PayrollCalculator.calculate_family_allowance`: family allowance from the
status code.  `none` models the uncaught `IndexError` raised by
`status_code[0]` when the upper-cased, stripped code is empty. -/
def calculate_family_allowance (status_code : String) (base_salary : ℚ) :
    Option ℚ :=
  if status_code = "" then some 0
  else
    match (pyStrip (pyUpper status_code)).data with
    | [] => none
    | marital_status :: rest =>
      match pyInt (String.mk rest) with
      | none => some 0
      | some number =>
        if marital_status = 'C' then
          if 0 ≤ number ∧ number ≤ 1 then some 15000
          else if 2 ≤ number ∧ number ≤ 4 then some 25000
          else if 5 ≤ number then some 35000
          else some 0
        else if marital_status = 'M' then
          if 0 ≤ number ∧ number ≤ 2 then some 25000
          else if 3 ≤ number ∧ number ≤ 4 then some 35000
          else if 5 ≤ number ∧ number ≤ 7 then some 45000
          else if 8 ≤ number then some 55000
          else some 0
        else some 0

/-- The social-contribution base of step 4 of `PayrollCalculator.calculate`
(`inps_amo_base`): adjusted base + transport + family + the two fixed
historical allowances; responsibility, risk, housing, overtime and bonus are
excluded. -/
def inps_amo_base_of (input_data : PayrollInput) : ℚ :=
  let adjusted_base := _calculate_adjusted_base input_data.base_salary
    input_data.days_worked input_data.days_absent
  let transport := pyOr input_data.transport_allowance
    (adjusted_base * (10/100))
  adjusted_base + transport + input_data.family_allowance +
    input_data.ind_spec_1973 + input_data.cher_vie_1974

/-- Method `PayrollCalculator.calculate`: the seven-stage pipeline.  Here `none` models
the uncaught exception propagated out of `get_family_charge_reduction`. -/
def calculate (input_data : PayrollInput) : Option PayrollResult :=
  match TaxCalculator.get_family_charge_reduction input_data.status_code with
  | none => none
  | some reduction =>
    let adjusted_base := _calculate_adjusted_base input_data.base_salary
      input_data.days_worked input_data.days_absent
    let transport := pyOr input_data.transport_allowance
      (adjusted_base * (10/100))
    let family := input_data.family_allowance
    let responsibility := input_data.responsibility_allowance
    let risk := input_data.risk_allowance
    let housing := input_data.housing_allowance
    let overtime := input_data.overtime_amount
    let bonus := input_data.bonus_amount
    let ind_spec := input_data.ind_spec_1973
    let cher_vie := input_data.cher_vie_1974
    let total_allowances := transport + family + responsibility + risk +
      housing + overtime + bonus + ind_spec + cher_vie
    let gross_salary := adjusted_base + total_allowances
    let inps_amo_base := adjusted_base + transport + family + ind_spec +
      cher_vie
    let inps_employee := inps_amo_base * INPS_EMPLOYEE_RATE
    let amo_employee := inps_amo_base * AMO_EMPLOYEE_RATE
    let income_tax := TaxCalculator.calculate_monthly_tax
      TaxCalculator.DEFAULT_BRACKETS gross_salary reduction
    let total_deductions := inps_employee + amo_employee + income_tax +
      input_data.loan_deduction + input_data.advance_deduction +
      input_data.other_deductions
    let net_salary := gross_salary - inps_employee - amo_employee - income_tax
    let net_to_pay := net_salary - input_data.loan_deduction -
      input_data.advance_deduction - input_data.other_deductions
    let inps_employer := inps_amo_base * INPS_EMPLOYER_RATE
    let amo_employer := inps_amo_base * AMO_EMPLOYER_RATE
    let taxe_logement := gross_salary * (1/100)
    let taxe_formation := gross_salary * (2/100)
    let taxe_emploi := gross_salary * (2/100)
    let contribution_cfe := gross_salary * (35/1000)
    let total_labor_taxes := taxe_logement + taxe_formation + taxe_emploi +
      contribution_cfe
    let total_employer_cost := inps_employer + amo_employer + total_labor_taxes
    let total_cost := gross_salary + total_employer_cost
    some {
      employee_id := input_data.employee_id
      base_salary := round2 input_data.base_salary
      days_worked := input_data.days_worked
      days_absent := input_data.days_absent
      adjusted_base_salary := round2 adjusted_base
      transport_allowance := round2 transport
      family_allowance := round2 family
      responsibility_allowance := round2 responsibility
      risk_allowance := round2 risk
      housing_allowance := round2 housing
      overtime_amount := round2 overtime
      bonus_amount := round2 bonus
      ind_spec_1973 := round2 ind_spec
      cher_vie_1974 := round2 cher_vie
      total_allowances := round2 total_allowances
      gross_salary := round2 gross_salary
      inps_employee := round2 inps_employee
      amo_employee := round2 amo_employee
      income_tax_net := round2 income_tax
      loan_deduction := round2 input_data.loan_deduction
      advance_deduction := round2 input_data.advance_deduction
      other_deductions := round2 input_data.other_deductions
      total_deductions := round2 total_deductions
      net_salary := round2 net_salary
      net_to_pay := round2 net_to_pay
      inps_employer := round2 inps_employer
      amo_employer := round2 amo_employer
      total_employer_cost := round2 total_employer_cost
      taxe_logement := round2 taxe_logement
      taxe_formation := round2 taxe_formation
      taxe_emploi := round2 taxe_emploi
      contribution_cfe := round2 contribution_cfe
      total_labor_taxes := round2 total_labor_taxes
      total_cost := round2 total_cost }

end PayrollCalculator

/-- The keyword arguments of the convenience function `calculate_payroll`
other than `family_allowance`, whose presence or absence in `**kwargs` is
significant and is therefore modelled separately as an `Option`. -/
structure PayrollKwargs where
  days_worked : ℤ := 26
  days_absent : ℤ := 0
  transport_allowance : ℚ := 0
  responsibility_allowance : ℚ := 0
  risk_allowance : ℚ := 0
  housing_allowance : ℚ := 0
  overtime_amount : ℚ := 0
  bonus_amount : ℚ := 0
  ind_spec_1973 : ℚ := 0
  cher_vie_1974 : ℚ := 0
  loan_deduction : ℚ := 0
  advance_deduction : ℚ := 0
  other_deductions : ℚ := 0
deriving DecidableEq

/-- Convenience entry point `calculate_payroll`: auto-fills
`family_allowance` from `calculate_family_allowance` only when the caller
omits the keyword (`family_allowance? = none` models
`'family_allowance' not in kwargs`). -/
def calculate_payroll (employee_id : String) (base_salary : ℚ)
    (status_code : String) (family_allowance? : Option ℚ)
    (kwargs : PayrollKwargs) : Option PayrollResult :=
  match (match family_allowance? with
         | some v => some v
         | none => PayrollCalculator.calculate_family_allowance status_code
             base_salary) with
  | none => none
  | some family_allowance =>
    PayrollCalculator.calculate {
      employee_id := employee_id
      base_salary := base_salary
      status_code := status_code
      days_worked := kwargs.days_worked
      days_absent := kwargs.days_absent
      transport_allowance := kwargs.transport_allowance
      family_allowance := family_allowance
      responsibility_allowance := kwargs.responsibility_allowance
      risk_allowance := kwargs.risk_allowance
      housing_allowance := kwargs.housing_allowance
      overtime_amount := kwargs.overtime_amount
      bonus_amount := kwargs.bonus_amount
      ind_spec_1973 := kwargs.ind_spec_1973
      cher_vie_1974 := kwargs.cher_vie_1974
      loan_deduction := kwargs.loan_deduction
      advance_deduction := kwargs.advance_deduction
      other_deductions := kwargs.other_deductions }

/-! ## General facts about the bracket loop -/

/-- Well-formedness of a bracket list needed for the order lemmas:
nonnegative rates, and a lower bound not exceeding the upper bound in every
bounded bracket. -/
def BracketsOK (brackets : List TaxBracket) : Prop :=
  ∀ bracket ∈ brackets, 0 ≤ bracket.tax_rate ∧
    bracket.max_income.elim True (fun mx => bracket.min_income ≤ mx)

theorem default_brackets_ok : BracketsOK TaxCalculator.DEFAULT_BRACKETS := by
  intro bracket hb
  simp only [TaxCalculator.DEFAULT_BRACKETS, List.mem_cons,
    List.not_mem_nil, or_false] at hb
  rcases hb with h | h | h | h | h | h | h <;> subst h <;>
    exact ⟨by norm_num, by norm_num [Option.elim]⟩

/-- The slice taxed in one bracket, as computed inside the loop. -/
def bracketSlice (bracket : TaxBracket) (income : ℚ) : ℚ :=
  match bracket.max_income with
  | none => income - bracket.min_income + 1
  | some mx =>
    if income > mx then mx - bracket.min_income + 1
    else income - bracket.min_income + 1

theorem taxLoop_cons (bracket : TaxBracket) (rest : List TaxBracket)
    (income : ℚ) :
    TaxCalculator.taxLoop (bracket :: rest) income =
      if income < bracket.min_income then 0
      else bracketSlice bracket income * bracket.tax_rate +
        TaxCalculator.taxLoop rest income := by
  simp only [TaxCalculator.taxLoop, bracketSlice]

theorem bracketSlice_nonneg (bracket : TaxBracket) (income : ℚ)
    (hmx : bracket.max_income.elim True (fun mx => bracket.min_income ≤ mx))
    (hin : bracket.min_income ≤ income) : 0 ≤ bracketSlice bracket income := by
  rcases h : bracket.max_income with _ | mx
  · simp only [bracketSlice, h]
    linarith
  · rw [h] at hmx
    simp only [Option.elim] at hmx
    simp only [bracketSlice, h]
    split_ifs <;> linarith

theorem bracketSlice_mono (bracket : TaxBracket) {a b : ℚ} (hab : a ≤ b)
    (ha : bracket.min_income ≤ a) :
    bracketSlice bracket a ≤ bracketSlice bracket b := by
  rcases h : bracket.max_income with _ | mx
  · simp only [bracketSlice, h]
    linarith
  · simp only [bracketSlice, h]
    split_ifs <;> linarith

theorem taxLoop_nonneg (brackets : List TaxBracket) (h : BracketsOK brackets)
    (income : ℚ) : 0 ≤ TaxCalculator.taxLoop brackets income := by
  induction brackets with
  | nil => simp [TaxCalculator.taxLoop]
  | cons bracket rest ih =>
    have hb := h bracket (List.mem_cons_self ..)
    have hrest : BracketsOK rest := fun b hbm => h b (List.mem_cons_of_mem _ hbm)
    rw [taxLoop_cons]
    split_ifs with hlt
    · exact le_refl 0
    · have hslice := bracketSlice_nonneg bracket income hb.2 (not_lt.mp hlt)
      have := ih hrest
      nlinarith [hb.1]

theorem taxLoop_mono (brackets : List TaxBracket) (h : BracketsOK brackets)
    {a b : ℚ} (hab : a ≤ b) :
    TaxCalculator.taxLoop brackets a ≤ TaxCalculator.taxLoop brackets b := by
  induction brackets with
  | nil => simp [TaxCalculator.taxLoop]
  | cons bracket rest ih =>
    have hb := h bracket (List.mem_cons_self ..)
    have hrest : BracketsOK rest := fun c hcm => h c (List.mem_cons_of_mem _ hcm)
    rw [taxLoop_cons, taxLoop_cons]
    split_ifs with ha hb2 hb2
    · exact le_refl 0
    · have hslice := bracketSlice_nonneg bracket b hb.2 (not_lt.mp hb2)
      have := taxLoop_nonneg rest hrest b
      nlinarith [hb.1]
    · linarith
    · have hmono := bracketSlice_mono bracket hab (not_lt.mp ha)
      have := ih hrest
      nlinarith [hb.1, bracketSlice_nonneg bracket a hb.2 (not_lt.mp ha)]

/-- Function `calculate_annual_tax` is monotone over any well-formed bracket list. -/
theorem calculate_annual_tax_mono (brackets : List TaxBracket)
    (h : BracketsOK brackets) {a b : ℚ} (hab : a ≤ b) :
    TaxCalculator.calculate_annual_tax brackets a ≤
      TaxCalculator.calculate_annual_tax brackets b := by
  unfold TaxCalculator.calculate_annual_tax
  split_ifs with ha hb2 hb2
  · exact le_refl 0
  · exact round2_nonneg (taxLoop_nonneg brackets h b)
  · exact absurd (hab.trans hb2) ha
  · exact round2_mono (taxLoop_mono brackets h hab)

theorem calculate_annual_tax_nonneg (brackets : List TaxBracket)
    (h : BracketsOK brackets) (income : ℚ) :
    0 ≤ TaxCalculator.calculate_annual_tax brackets income := by
  unfold TaxCalculator.calculate_annual_tax
  split_ifs with ha
  · exact le_refl 0
  · exact round2_nonneg (taxLoop_nonneg brackets h income)

/-! ## Claim theorems -/

/-- Modelled from the spec's words (§4.1), for comparison with
`calculate_annual_tax`: each visited bracket — one whose `min_income` does
not exceed the income — contributes
`(min(income, max_income) - min_income + 1) * rate`, or
`(income - min_income + 1) * rate` for the unbounded top bracket; other
brackets contribute nothing. -/
def specTaxContribution (bracket : TaxBracket) (income : ℚ) : ℚ :=
  if bracket.min_income ≤ income then
    (match bracket.max_income with
     | some mx => min income mx - bracket.min_income + 1
     | none => income - bracket.min_income + 1) * bracket.tax_rate
  else 0

/-- Modelled from the spec's words (§4.1): the contributions summed over all
brackets. -/
def specTaxSum (brackets : List TaxBracket) (income : ℚ) : ℚ :=
  (brackets.map (fun bracket => specTaxContribution bracket income)).sum

/-- The inclusive upper boundary of each bounded default bracket, and one
currency unit above it. -/
def bracketBoundaryIncomes : List ℚ :=
  [330000, 330001, 578400, 578401, 1176400, 1176401, 1789733, 1789734,
   2384195, 2384196, 3494130, 3494131]

/-- C1: at the inclusive upper boundary of every default bracket and one
currency unit above it, `calculate_annual_tax` equals the spec's
inclusive-boundary "+1" slice convention — the sum over visited brackets of
`(min(income, max_income) - min_income + 1) * rate` (or
`(income - min_income + 1) * rate` for the unbounded top bracket), rounded to
2 decimals; in particular `tax(330000) = 0` and `tax(330001) = 0.05`
exactly. -/
theorem C1_inclusive_boundary_convention :
    (∀ income ∈ bracketBoundaryIncomes,
      TaxCalculator.calculate_annual_tax TaxCalculator.DEFAULT_BRACKETS income
        = round2 (specTaxSum TaxCalculator.DEFAULT_BRACKETS income))
    ∧ TaxCalculator.calculate_annual_tax TaxCalculator.DEFAULT_BRACKETS 330000
        = 0
    ∧ TaxCalculator.calculate_annual_tax TaxCalculator.DEFAULT_BRACKETS 330001
        = 5/100 := by
  refine ⟨?_, ?_, ?_⟩
  · intro income hinc
    simp only [bracketBoundaryIncomes, List.mem_cons, List.not_mem_nil,
      or_false] at hinc
    rcases hinc with h|h|h|h|h|h|h|h|h|h|h|h <;> subst h <;>
      norm_num [TaxCalculator.calculate_annual_tax,
        TaxCalculator.DEFAULT_BRACKETS, TaxCalculator.taxLoop, specTaxSum,
        specTaxContribution, round2, roundHalfEven, min_def]
  · norm_num [TaxCalculator.calculate_annual_tax,
      TaxCalculator.DEFAULT_BRACKETS, TaxCalculator.taxLoop, round2,
      roundHalfEven]
  · norm_num [TaxCalculator.calculate_annual_tax,
      TaxCalculator.DEFAULT_BRACKETS, TaxCalculator.taxLoop, round2,
      roundHalfEven]

/-- Witness for C1 at the boundary income 330000. -/
theorem C1_inclusive_boundary_convention_witness :
    (330000 : ℚ) ∈ bracketBoundaryIncomes ∧
      TaxCalculator.calculate_annual_tax TaxCalculator.DEFAULT_BRACKETS 330000
        = round2 (specTaxSum TaxCalculator.DEFAULT_BRACKETS 330000) :=
  ⟨by simp [bracketBoundaryIncomes],
   C1_inclusive_boundary_convention.1 330000 (by simp [bracketBoundaryIncomes])⟩

/-- C6: `calculate_annual_tax` on the default brackets is monotone
non-decreasing, and every income ≤ 0 yields exactly 0. -/
theorem C6_annual_tax_monotone_nonneg_zero :
    (∀ a b : ℚ, a < b →
      TaxCalculator.calculate_annual_tax TaxCalculator.DEFAULT_BRACKETS a ≤
        TaxCalculator.calculate_annual_tax TaxCalculator.DEFAULT_BRACKETS b)
    ∧ ∀ income : ℚ, income ≤ 0 →
        TaxCalculator.calculate_annual_tax TaxCalculator.DEFAULT_BRACKETS
          income = 0 := by
  constructor
  · intro a b hab
    exact calculate_annual_tax_mono _ default_brackets_ok hab.le
  · intro income h
    simp [TaxCalculator.calculate_annual_tax, h]

/-- Witness for C6: a concrete increasing pair and a concrete non-positive
income. -/
theorem C6_annual_tax_monotone_nonneg_zero_witness :
    ((400000 : ℚ) < 600000 ∧
      TaxCalculator.calculate_annual_tax TaxCalculator.DEFAULT_BRACKETS 400000
        ≤ TaxCalculator.calculate_annual_tax TaxCalculator.DEFAULT_BRACKETS
            600000)
    ∧ ((-1 : ℚ) ≤ 0 ∧
      TaxCalculator.calculate_annual_tax TaxCalculator.DEFAULT_BRACKETS (-1)
        = 0) :=
  ⟨⟨by norm_num,
    C6_annual_tax_monotone_nonneg_zero.1 400000 600000 (by norm_num)⟩,
   ⟨by norm_num, C6_annual_tax_monotone_nonneg_zero.2 (-1) (by norm_num)⟩⟩

/-- C7: for any monthly gross salary and any reduction fraction in `[0, 1]`,
the family reduction reduces or holds the monthly tax constant, never
increases it. -/
theorem C7_family_reduction_never_increases_tax (gross f : ℚ)
    (h0 : 0 ≤ f) (h1 : f ≤ 1) :
    TaxCalculator.calculate_monthly_tax TaxCalculator.DEFAULT_BRACKETS gross f
      ≤ TaxCalculator.calculate_monthly_tax TaxCalculator.DEFAULT_BRACKETS
          gross 0 := by
  simp only [TaxCalculator.calculate_monthly_tax]
  rw [if_neg (by norm_num : ¬ ((0:ℚ) > 0))]
  apply round2_mono
  rw [div_le_div_iff_of_pos_right (by norm_num : (0:ℚ) < 12)]
  split_ifs with hf
  · rcases le_or_lt 0 gross with hg | hg
    · exact calculate_annual_tax_mono _ default_brackets_ok (by nlinarith)
    · have hA : gross * 12 ≤ 0 := by linarith
      have hA' : gross * 12 * (1 - f) ≤ 0 := by nlinarith
      simp [TaxCalculator.calculate_annual_tax, hA, hA']
  · exact le_refl _

/-- Witness for C7 at gross 565000 and reduction 1/4. -/
theorem C7_family_reduction_never_increases_tax_witness :
    (0 : ℚ) ≤ 1/4 ∧ (1/4 : ℚ) ≤ 1 ∧
      TaxCalculator.calculate_monthly_tax TaxCalculator.DEFAULT_BRACKETS
          565000 (1/4)
        ≤ TaxCalculator.calculate_monthly_tax TaxCalculator.DEFAULT_BRACKETS
            565000 0 :=
  ⟨by norm_num, by norm_num,
   C7_family_reduction_never_increases_tax 565000 (1/4) (by norm_num)
     (by norm_num)⟩

/-- C8: with no absence the adjusted base is the base salary unchanged;
otherwise it is `max(0, base_salary - (base_salary / 26) * days_absent)`,
hence never negative, and 40 absent days on a non-negative salary clamp it
to 0. -/
theorem C8_adjusted_base_clamped (base_salary : ℚ)
    (days_worked days_absent : ℤ) :
    (days_absent = 0 →
      PayrollCalculator._calculate_adjusted_base base_salary days_worked
        days_absent = base_salary)
    ∧ (days_absent ≠ 0 →
      PayrollCalculator._calculate_adjusted_base base_salary days_worked
          days_absent
        = max 0 (base_salary - base_salary / 26 * (days_absent : ℚ))
      ∧ 0 ≤ PayrollCalculator._calculate_adjusted_base base_salary days_worked
          days_absent)
    ∧ (0 ≤ base_salary →
      PayrollCalculator._calculate_adjusted_base base_salary days_worked 40
        = 0) := by
  refine ⟨fun h => ?_, fun h => ⟨?_, ?_⟩, fun h => ?_⟩
  · simp [PayrollCalculator._calculate_adjusted_base, h]
  · simp [PayrollCalculator._calculate_adjusted_base, h]
  · simp only [PayrollCalculator._calculate_adjusted_base]
    split_ifs
    all_goals first
      | exact le_max_left 0 _
      | (rename_i h0; exact absurd h0 h)
  · have h40 : base_salary - base_salary / 26 * ((40 : ℤ) : ℚ) ≤ 0 := by
      push_cast
      linarith
    simp only [PayrollCalculator._calculate_adjusted_base]
    rw [if_neg (by norm_num : ¬ ((40 : ℤ) = 0))]
    exact max_eq_left h40

/-- Witness for C8 at base 500000: no absence keeps the base, 40 absent days
clamp to 0. -/
theorem C8_adjusted_base_clamped_witness :
    PayrollCalculator._calculate_adjusted_base 500000 26 0 = 500000
    ∧ PayrollCalculator._calculate_adjusted_base 500000 26 40 = 0 :=
  ⟨(C8_adjusted_base_clamped 500000 26 0).1 rfl,
   (C8_adjusted_base_clamped 500000 26 40).2.2 (by norm_num)⟩

theorem round2_zero : round2 0 = 0 := by
  norm_num [round2, roundHalfEven]

/-- C2 (code bug): the first three cumulative-tax entries of
`DEFAULT_BRACKETS` satisfy the invariant
`cumulative_tax[i] = cumulative_tax[i-1] + (max - min + 1) * rate`, but the
entry of bracket 4 (min 1789734) is 194579 while the invariant — and the
iterative sum at income 1789733 — requires 194579.94; consequently the
cumulative-shortcut evaluation at income 1789734 disagrees with the
iterative sum by 0.94, far more than a cent. -/
theorem C2_cumulative_tax_table_inconsistent :
    TaxCalculator.DEFAULT_BRACKETS.map TaxBracket.cumulative_tax
      = [0, 0, 12420, 84180, 194579, 349134, 693217]
    ∧ (0 : ℚ) = 0 + (330000 - 0 + 1) * 0
    ∧ (12420 : ℚ) = 0 + (578400 - 330001 + 1) * (5/100)
    ∧ (84180 : ℚ) = 12420 + (1176400 - 578401 + 1) * (12/100)
    ∧ (84180 : ℚ) + (1789733 - 1176401 + 1) * (18/100) = 19457994/100
    ∧ (194579 : ℚ) ≠ 19457994/100
    ∧ TaxCalculator.calculate_annual_tax TaxCalculator.DEFAULT_BRACKETS
        1789733 = 19457994/100
    ∧ TaxCalculator.calculate_annual_tax TaxCalculator.DEFAULT_BRACKETS
        1789734 = 1945802/10
    ∧ (194579 : ℚ) + (1789734 - 1789734 + 1) * (26/100) = 19457926/100
    ∧ (19457926/100 : ℚ) ≠ 1945802/10 := by
  refine ⟨by norm_num [TaxCalculator.DEFAULT_BRACKETS], by norm_num,
    by norm_num, by norm_num, by norm_num, by norm_num, ?_, ?_,
    by norm_num, by norm_num⟩ <;>
  norm_num [TaxCalculator.calculate_annual_tax,
    TaxCalculator.DEFAULT_BRACKETS, TaxCalculator.taxLoop, round2,
    roundHalfEven]

/-- C3 (code bug): all malformed-code categories named by the spec — empty
string, unknown leading letter, non-numeric suffix, integer outside the
listed ranges — do resolve to the zero-effect default in both lookups, but a
whitespace-only status code slips past the emptiness check, strips to the
empty string, and the `status_code[0]` indexing (placed outside the `try`
block whose handler lists `IndexError`) raises an uncaught `IndexError`
(modelled as `none`): the lookups do not return 0 without raising for every
string input. -/
theorem C3_whitespace_status_code_raises :
    TaxCalculator.get_family_charge_reduction "" = some 0
    ∧ TaxCalculator.get_family_charge_reduction "X7" = some 0
    ∧ TaxCalculator.get_family_charge_reduction "Cx" = some 0
    ∧ TaxCalculator.get_family_charge_reduction "C99" = some 0
    ∧ PayrollCalculator.calculate_family_allowance "" 500000 = some 0
    ∧ PayrollCalculator.calculate_family_allowance "X7" 500000 = some 0
    ∧ PayrollCalculator.calculate_family_allowance "Cx" 500000 = some 0
    ∧ PayrollCalculator.calculate_family_allowance "C-3" 500000 = some 0
    ∧ TaxCalculator.get_family_charge_reduction " " = none
    ∧ PayrollCalculator.calculate_family_allowance " " 500000 = none :=
  ⟨rfl, rfl, rfl, rfl, rfl, rfl, rfl, rfl, rfl, rfl⟩

theorem reduction_C0 : TaxCalculator.get_family_charge_reduction "C0" = some 0 :=
  rfl

theorem allowance_C0 :
    PayrollCalculator.calculate_family_allowance "C0" 500000 = some 15000 :=
  rfl

/-- C4: the end-to-end scenario base 500000, status "C0", 26 days worked, no
absence, all other inputs zero: transport defaults to 50000, the family
allowance lookup supplies 15000, gross is 565000, the contribution base is
565000, INPS employee 20340 (3.6%), AMO employee 17289 (3.06%), and the
income tax is the TaxEngine's monthly tax on gross 565000 — annualized
6780000 at 0% reduction (C0), landing in the unbounded top bracket. -/
theorem C4_end_to_end_scenario :
    (calculate_payroll "EMP" 500000 "C0" none {}).map
        PayrollResult.transport_allowance = some 50000
    ∧ (calculate_payroll "EMP" 500000 "C0" none {}).map
        PayrollResult.family_allowance = some 15000
    ∧ (calculate_payroll "EMP" 500000 "C0" none {}).map
        PayrollResult.gross_salary = some 565000
    ∧ PayrollCalculator.inps_amo_base_of
        { employee_id := "EMP", base_salary := 500000, status_code := "C0",
          family_allowance := 15000 } = 565000
    ∧ (calculate_payroll "EMP" 500000 "C0" none {}).map
        PayrollResult.inps_employee = some 20340
    ∧ (565000 : ℚ) * INPS_EMPLOYEE_RATE = 20340
    ∧ (calculate_payroll "EMP" 500000 "C0" none {}).map
        PayrollResult.amo_employee = some 17289
    ∧ (565000 : ℚ) * AMO_EMPLOYEE_RATE = 17289
    ∧ TaxCalculator.get_family_charge_reduction "C0" = some 0
    ∧ (565000 : ℚ) * 12 = 6780000
    ∧ TaxCalculator.DEFAULT_BRACKETS.getLast?
        = some ⟨3494131, none, 37/100, 693217⟩
    ∧ (3494131 : ℚ) ≤ 6780000
    ∧ (calculate_payroll "EMP" 500000 "C0" none {}).map
        PayrollResult.income_tax_net
      = some (TaxCalculator.calculate_monthly_tax
          TaxCalculator.DEFAULT_BRACKETS 565000 0) := by
  refine ⟨?_, ?_, ?_, ?_, ?_, ?_, ?_, ?_, rfl, by norm_num, ?_, by norm_num,
    ?_⟩ <;>
  norm_num [calculate_payroll, allowance_C0, PayrollCalculator.calculate,
    reduction_C0, PayrollCalculator._calculate_adjusted_base,
    PayrollCalculator.inps_amo_base_of, pyOr,
    TaxCalculator.calculate_monthly_tax, TaxCalculator.calculate_annual_tax,
    TaxCalculator.DEFAULT_BRACKETS, TaxCalculator.taxLoop,
    INPS_EMPLOYEE_RATE, AMO_EMPLOYEE_RATE, INPS_EMPLOYER_RATE,
    AMO_EMPLOYER_RATE, round2, roundHalfEven]

/-- C9: housing allowance is excluded from the social-contribution base —
two inputs differing only in `housing_allowance` produce identical
`inps_employee`, `amo_employee`, `inps_employer` and `amo_employer`
figures. -/
theorem C9_housing_excluded_from_contribution_base
    (input_data : PayrollInput) (h1 h2 : ℚ) :
    (PayrollCalculator.calculate
        { input_data with housing_allowance := h1 }).map
        PayrollResult.inps_employee
      = (PayrollCalculator.calculate
          { input_data with housing_allowance := h2 }).map
          PayrollResult.inps_employee
    ∧ (PayrollCalculator.calculate
        { input_data with housing_allowance := h1 }).map
        PayrollResult.amo_employee
      = (PayrollCalculator.calculate
          { input_data with housing_allowance := h2 }).map
          PayrollResult.amo_employee
    ∧ (PayrollCalculator.calculate
        { input_data with housing_allowance := h1 }).map
        PayrollResult.inps_employer
      = (PayrollCalculator.calculate
          { input_data with housing_allowance := h2 }).map
          PayrollResult.inps_employer
    ∧ (PayrollCalculator.calculate
        { input_data with housing_allowance := h1 }).map
        PayrollResult.amo_employer
      = (PayrollCalculator.calculate
          { input_data with housing_allowance := h2 }).map
          PayrollResult.amo_employer := by
  rcases hred : TaxCalculator.get_family_charge_reduction
      input_data.status_code with _ | red <;>
    refine ⟨?_, ?_, ?_, ?_⟩ <;>
    simp [PayrollCalculator.calculate, hred]

theorem reduction_empty :
    TaxCalculator.get_family_charge_reduction "" = some 0 := rfl

/-- Counterexample to C5 as stated: two inputs that differ only in
`risk_allowance` (by a sub-cent amount, 0 vs 0.001) produce *identical*
reported `gross_salary` and `total_cost`, because every result field is
rounded to 2 decimals — so "different gross_salary and total_cost" does not
hold for every pair differing only in risk. -/
theorem C5_subcent_risk_counterexample :
    (0 : ℚ) ≠ 1/1000
    ∧ (PayrollCalculator.calculate
        { employee_id := "E", base_salary := 0, risk_allowance := 0 }).map
        PayrollResult.gross_salary
      = (PayrollCalculator.calculate
          { employee_id := "E", base_salary := 0,
            risk_allowance := 1/1000 }).map PayrollResult.gross_salary
    ∧ (PayrollCalculator.calculate
        { employee_id := "E", base_salary := 0, risk_allowance := 0 }).map
        PayrollResult.total_cost
      = (PayrollCalculator.calculate
          { employee_id := "E", base_salary := 0,
            risk_allowance := 1/1000 }).map PayrollResult.total_cost := by
  refine ⟨by norm_num, ?_, ?_⟩ <;>
  norm_num [PayrollCalculator.calculate, reduction_empty,
    PayrollCalculator._calculate_adjusted_base, pyOr,
    TaxCalculator.calculate_monthly_tax, TaxCalculator.calculate_annual_tax,
    TaxCalculator.DEFAULT_BRACKETS, TaxCalculator.taxLoop,
    INPS_EMPLOYEE_RATE, AMO_EMPLOYEE_RATE, INPS_EMPLOYER_RATE,
    AMO_EMPLOYER_RATE, round2, roundHalfEven]


/-- C5 amended: two inputs differing only in `risk_allowance` always produce
identical `inps_employee`, `amo_employee`, `inps_employer` and
`amo_employer` figures, the employee INPS figure being exactly the rounded
product of the contribution base — adjusted base + transport + family + the
two historical fixed allowances — with the INPS employee rate; the reported
`gross_salary` and `total_cost` differ whenever the two risk allowances
differ by more than one cent (sub-cent differences can round to identical
reported figures, as the counterexample shows). -/
theorem C5_risk_frame_amended (input_data : PayrollInput) (r1 r2 red : ℚ)
    (hred : TaxCalculator.get_family_charge_reduction input_data.status_code
      = some red)
    (hgap : 1/100 < |r1 - r2|) :
    (PayrollCalculator.calculate
        { input_data with risk_allowance := r1 }).map
        PayrollResult.inps_employee
      = (PayrollCalculator.calculate
          { input_data with risk_allowance := r2 }).map
          PayrollResult.inps_employee
    ∧ (PayrollCalculator.calculate
        { input_data with risk_allowance := r1 }).map
        PayrollResult.amo_employee
      = (PayrollCalculator.calculate
          { input_data with risk_allowance := r2 }).map
          PayrollResult.amo_employee
    ∧ (PayrollCalculator.calculate
        { input_data with risk_allowance := r1 }).map
        PayrollResult.inps_employer
      = (PayrollCalculator.calculate
          { input_data with risk_allowance := r2 }).map
          PayrollResult.inps_employer
    ∧ (PayrollCalculator.calculate
        { input_data with risk_allowance := r1 }).map
        PayrollResult.amo_employer
      = (PayrollCalculator.calculate
          { input_data with risk_allowance := r2 }).map
          PayrollResult.amo_employer
    ∧ (PayrollCalculator.calculate
        { input_data with risk_allowance := r1 }).map
        PayrollResult.inps_employee
      = some (round2 (PayrollCalculator.inps_amo_base_of input_data *
          INPS_EMPLOYEE_RATE))
    ∧ (PayrollCalculator.calculate
        { input_data with risk_allowance := r1 }).map
        PayrollResult.gross_salary
      ≠ (PayrollCalculator.calculate
          { input_data with risk_allowance := r2 }).map
          PayrollResult.gross_salary
    ∧ (PayrollCalculator.calculate
        { input_data with risk_allowance := r1 }).map
        PayrollResult.total_cost
      ≠ (PayrollCalculator.calculate
          { input_data with risk_allowance := r2 }).map
          PayrollResult.total_cost := by
  refine ⟨?_, ?_, ?_, ?_, ?_, ?_, ?_⟩
  · simp [PayrollCalculator.calculate, hred]
  · simp [PayrollCalculator.calculate, hred]
  · simp [PayrollCalculator.calculate, hred]
  · simp [PayrollCalculator.calculate, hred]
  · simp [PayrollCalculator.calculate, PayrollCalculator.inps_amo_base_of,
      hred]
  · simp only [PayrollCalculator.calculate, hred, Option.map_some', ne_eq,
      Option.some.injEq]
    rcases lt_abs.mp hgap with h | h
    · exact ne_of_gt (round2_lt_of_gap (by linarith))
    · exact ne_of_lt (round2_lt_of_gap (by linarith))
  · simp only [PayrollCalculator.calculate, hred, Option.map_some', ne_eq,
      Option.some.injEq]
    rcases lt_abs.mp hgap with h | h
    · exact ne_of_gt (round2_lt_of_gap (by linarith))
    · exact ne_of_lt (round2_lt_of_gap (by linarith))

/-- Witness for the amended C5 at base 500000 with risk 2000 vs 0. -/
theorem C5_risk_frame_amended_witness :
    TaxCalculator.get_family_charge_reduction
        (PayrollInput.status_code { employee_id := "E", base_salary := 500000 })
      = some 0
    ∧ (1/100 : ℚ) < |2000 - 0|
    ∧ (PayrollCalculator.calculate
        { ({ employee_id := "E", base_salary := 500000 } : PayrollInput) with
          risk_allowance := (2000 : ℚ) }).map PayrollResult.inps_employee
      = (PayrollCalculator.calculate
          { ({ employee_id := "E", base_salary := 500000 } : PayrollInput) with
            risk_allowance := (0 : ℚ) }).map PayrollResult.inps_employee
    ∧ (PayrollCalculator.calculate
        { ({ employee_id := "E", base_salary := 500000 } : PayrollInput) with
          risk_allowance := (2000 : ℚ) }).map PayrollResult.gross_salary
      ≠ (PayrollCalculator.calculate
          { ({ employee_id := "E", base_salary := 500000 } : PayrollInput) with
            risk_allowance := (0 : ℚ) }).map PayrollResult.gross_salary :=
  ⟨rfl, by norm_num,
   (C5_risk_frame_amended { employee_id := "E", base_salary := 500000 }
     2000 0 0 rfl (by norm_num)).1,
   (C5_risk_frame_amended { employee_id := "E", base_salary := 500000 }
     2000 0 0 rfl (by norm_num)).2.2.2.2.2.1⟩

/-- C10: `calculate_payroll` auto-fills `family_allowance` from the
status-code lookup only when the caller omits the keyword; an explicitly
supplied `family_allowance` of 0 is kept as 0 — unlike
`transport_allowance`, where an explicit 0 still triggers the
10%-of-adjusted-base default inside the pipeline. -/
theorem C10_family_autofill_only_when_omitted (employee_id : String)
    (base_salary : ℚ) (status_code : String) (kwargs : PayrollKwargs)
    (red fam : ℚ)
    (hred : TaxCalculator.get_family_charge_reduction status_code = some red)
    (hfam : PayrollCalculator.calculate_family_allowance status_code
      base_salary = some fam) :
    (calculate_payroll employee_id base_salary status_code (some 0)
        kwargs).map PayrollResult.family_allowance = some 0
    ∧ (calculate_payroll employee_id base_salary status_code none
        kwargs).map PayrollResult.family_allowance = some (round2 fam)
    ∧ (kwargs.transport_allowance = 0 →
        (calculate_payroll employee_id base_salary status_code (some 0)
            kwargs).map PayrollResult.transport_allowance
          = some (round2 (PayrollCalculator._calculate_adjusted_base
              base_salary kwargs.days_worked kwargs.days_absent
              * (10/100)))) := by
  refine ⟨?_, ?_, fun ht => ?_⟩
  · simp [calculate_payroll, PayrollCalculator.calculate, hred, round2_zero]
  · simp [calculate_payroll, hfam, PayrollCalculator.calculate, hred]
  · simp [calculate_payroll, PayrollCalculator.calculate, hred, pyOr, ht]

/-- Witness for C10: status "C0" on base 500000 with default kwargs. -/
theorem C10_family_autofill_only_when_omitted_witness :
    (calculate_payroll "E" 500000 "C0" (some 0) {}).map
        PayrollResult.family_allowance = some 0
    ∧ (calculate_payroll "E" 500000 "C0" none {}).map
        PayrollResult.family_allowance = some (round2 15000)
    ∧ (calculate_payroll "E" 500000 "C0" (some 0) {}).map
        PayrollResult.transport_allowance
      = some (round2 (PayrollCalculator._calculate_adjusted_base 500000
          (PayrollKwargs.days_worked {}) (PayrollKwargs.days_absent {})
          * (10/100))) :=
  ⟨(C10_family_autofill_only_when_omitted "E" 500000 "C0" {} 0 15000
      rfl rfl).1,
   (C10_family_autofill_only_when_omitted "E" 500000 "C0" {} 0 15000
      rfl rfl).2.1,
   (C10_family_autofill_only_when_omitted "E" 500000 "C0" {} 0 15000
      rfl rfl).2.2 rfl⟩
